import Mathlib

/-!
Shallow embedding of the Privacy Budget & Noise-Injection Engine of the
MissingLink repository (`backend/app/services/differential_privacy.py` and the
`check-k-anonymity` endpoint of `backend/app/api/dp.py`).

Floats are modelled as rationals (`ℚ`); the real-valued advanced-composition
formula, which uses `sqrt`, `log` and `exp`, is modelled over `ℝ`.  The random
draw of a noise mechanism is modelled as an oracle giving the additive noise
for each column and row index, since both Laplace and Gaussian mechanisms are
additive (`mech.randomise(v) = v + noise`).  Python exceptions are modelled
with `Except`.
-/

/-- A dataframe column: its name, whether its dtype is one of the numeric
dtypes (`int64/float64/int32/float32`), and its values. -/
structure Column where
  name : String
  numeric : Bool
  values : List ℚ
  deriving DecidableEq, Repr

/-- A pandas dataframe, as a list of named columns. -/
abbrev DataFrame := List Column

/-- The mutable state of one `DifferentialPrivacy` instance: `epsilon`,
`delta` and the running `privacy_budget_spent` accumulator. -/
structure DPState where
  epsilon : ℚ
  delta : ℚ
  privacy_budget_spent : ℚ
  deriving DecidableEq, Repr

/-- A Python `ValueError` (the unknown-mechanism branch of
`_add_noise_to_column`, and the parameter validation diffprivlib performs when
a mechanism object is constructed). -/
inductive DPError where
  | valueError : DPError
  deriving DecidableEq, Repr

/-- The `privacy_levels` table of `DifferentialPrivacy.__init__`:
each level with its half-open epsilon range `[min_eps, max_eps)`. -/
def privacy_levels : List (String × ℚ × ℚ) :=
  [("very_high", 0.1, 0.5), ("high", 0.5, 1.0), ("medium", 1.0, 2.0),
   ("low", 2.0, 5.0), ("very_low", 5.0, 10.0)]

/-- `DifferentialPrivacy.get_privacy_level`: the first level of the table
whose range `[min_eps, max_eps)` holds `epsilon`, else `"custom"`. -/
def get_privacy_level (epsilon : ℚ) : String :=
  match privacy_levels.find? (fun p => decide (p.2.1 ≤ epsilon ∧ epsilon < p.2.2)) with
  | some p => p.1
  | none => "custom"

/-- `DifferentialPrivacy._get_privacy_level_for_epsilon`: the if-elif chain
used by the epsilon advisor. -/
def get_privacy_level_for_epsilon (epsilon : ℚ) : String :=
  if epsilon < 0.5 then "very_high"
  else if epsilon < 1.0 then "high"
  else if epsilon < 2.0 then "medium"
  else if epsilon < 5.0 then "low"
  else "very_low"

/-- `np.clip` applied to one element: clamp `x` into `[lower, upper]`
(lower bound applied first, then the upper bound, as numpy does). -/
def npClip (x lower upper : ℚ) : ℚ := min (max x lower) upper

/-- Minimum of a column's values (`df[column].min()`); the empty case is never
reached for the nonempty columns the claims are about. -/
def listMin : List ℚ → ℚ
  | [] => 0
  | x :: xs => xs.foldl min x

/-- Maximum of a column's values (`df[column].max()`). -/
def listMax : List ℚ → ℚ
  | [] => 0
  | x :: xs => xs.foldl max x

/-- Mean of a list of values (`values.mean()`); for the empty list Python
produces NaN while `ℚ` division by zero yields `0` — no claim concerns the
mean of an empty column. -/
def listMean (xs : List ℚ) : ℚ := xs.sum / (xs.length : ℚ)

/-- Parameter validation performed when the mechanism object is built in
`_add_noise_to_column`: the explicit `else: raise ValueError` branch for an
unknown mechanism string, and diffprivlib's constructor checks — sensitivity
must be non-negative, epsilon positive, and (Gaussian) delta in `(0,1)`.
Further library-side constraints on the Gaussian parameters are not modelled;
no claim depends on them. -/
def mechanismCheck (mechanism : String) (epsilon delta sensitivity : ℚ) :
    Except DPError Unit :=
  if mechanism = "laplace" then
    if sensitivity < 0 ∨ epsilon ≤ 0 then .error .valueError else .ok ()
  else if mechanism = "gaussian" then
    if sensitivity < 0 ∨ epsilon ≤ 0 ∨ delta ≤ 0 ∨ 1 ≤ delta then .error .valueError
    else .ok ()
  else .error .valueError

/-- `DifferentialPrivacy._add_noise_to_column`: `sensitivity = upper - lower`,
build the mechanism (validating its parameters), add one independent random
draw to every value, then clip every noisy value into `[lower, upper]`.
The draw for row `i` is the oracle value `noise i`. -/
def add_noise_to_column (values : List ℚ) (mechanism : String)
    (epsilon delta lower upper : ℚ) (noise : ℕ → ℚ) : Except DPError (List ℚ) :=
  let sensitivity := upper - lower
  match mechanismCheck mechanism epsilon delta sensitivity with
  | .error e => .error e
  | .ok _ =>
    .ok (((values.enum.map (fun p => p.2 + noise p.1)).map
      (fun x => npClip x lower upper)))

/-- Bounds resolution inside the column loop of `apply_noise_to_dataframe`:
the explicit bounds entry for the column when present, otherwise the column's
observed min and max. -/
def resolveBounds (bounds : List (String × ℚ × ℚ)) (column : String)
    (values : List ℚ) : ℚ × ℚ :=
  match bounds.find? (fun p => p.1 == column) with
  | some p => p.2
  | none => (listMin values, listMax values)

/-- One column's entry of `dp_report["noise_statistics"]`. -/
structure NoiseStat where
  original_mean : ℚ
  noisy_mean : ℚ
  noise_magnitude : ℚ
  relative_error : ℚ
  epsilon_used : ℚ
  bounds : ℚ × ℚ
  deriving DecidableEq, Repr

/-- The per-column statistics recorded after a column is noised. -/
def mkNoiseStat (values noisy : List ℚ) (epsilon lower upper : ℚ) : NoiseStat :=
  let original_mean := listMean values
  let noisy_mean := listMean noisy
  let noise_magnitude := |noisy_mean - original_mean|
  { original_mean := original_mean
    noisy_mean := noisy_mean
    noise_magnitude := noise_magnitude
    relative_error := if original_mean ≠ 0 then noise_magnitude / |original_mean| else 0
    epsilon_used := epsilon
    bounds := (lower, upper) }

/-- The dataset-level `dp_report`. -/
structure DPReport where
  epsilon : ℚ
  delta : ℚ
  mechanism : String
  privacy_level : String
  columns_processed : List String
  noise_statistics : List (String × NoiseStat)
  privacy_budget_spent : ℚ
  deriving DecidableEq, Repr

/-- One iteration of the column loop of `apply_noise_to_dataframe` for column
`column`: skip it (`none`) when absent from the dataframe or non-numeric,
otherwise resolve bounds and noise it, producing the clipped values and the
statistics entry.  Bounds are always resolved against the original dataframe
`df`. -/
def processColumn (df : DataFrame) (mechanism : String)
    (epsilonPerColumn delta : ℚ) (bounds : List (String × ℚ × ℚ))
    (noise : String → ℕ → ℚ) (column : String) :
    Except DPError (Option (List ℚ × NoiseStat)) :=
  match df.find? (fun col => col.name == column) with
  | none => .ok none
  | some col =>
    if ¬ col.numeric then .ok none
    else
      let b := resolveBounds bounds column col.values
      match add_noise_to_column col.values mechanism epsilonPerColumn delta
          b.1 b.2 (noise column) with
      | .error e => .error e
      | .ok noisy =>
        .ok (some (noisy, mkNoiseStat col.values noisy epsilonPerColumn b.1 b.2))

/-- `df_dp[column] = noisy_values`: replace the values of the column named
`column`. -/
def setColumn (df : DataFrame) (column : String) (vals : List ℚ) : DataFrame :=
  df.map (fun col => if col.name == column then { col with values := vals } else col)

/-- The column loop of `apply_noise_to_dataframe`, threading the working
dataframe copy, `columns_processed` and `noise_statistics`; an exception from
any column aborts the whole call. -/
def applyLoop (df : DataFrame) (mechanism : String) (epsilonPerColumn delta : ℚ)
    (bounds : List (String × ℚ × ℚ)) (noise : String → ℕ → ℚ) :
    List String → DataFrame → List String → List (String × NoiseStat) →
    Except DPError (DataFrame × List String × List (String × NoiseStat))
  | [], dfDp, processed, stats => .ok (dfDp, processed, stats)
  | c :: rest, dfDp, processed, stats =>
    match processColumn df mechanism epsilonPerColumn delta bounds noise c with
    | .error e => .error e
    | .ok none => applyLoop df mechanism epsilonPerColumn delta bounds noise
        rest dfDp processed stats
    | .ok (some (noisy, st)) => applyLoop df mechanism epsilonPerColumn delta bounds noise
        rest (setColumn dfDp c noisy) (processed ++ [c]) (stats ++ [(c, st)])

/-- The target-column default of `apply_noise_to_dataframe`: the caller's list
when given, otherwise all numeric columns
(`df.select_dtypes(include=[np.number])`). -/
def targetColumns (df : DataFrame) (columns : Option (List String)) : List String :=
  match columns with
  | none => (df.filter (fun col => col.numeric)).map (fun col => col.name)
  | some cs => cs

/-- `epsilon_per_column = self.epsilon / len(columns) if columns else
self.epsilon`: the equal epsilon split, the whole epsilon when the column list
is empty. -/
def epsilon_per_column (s : DPState) (cols : List String) : ℚ :=
  if cols.length ≠ 0 then s.epsilon / (cols.length : ℚ) else s.epsilon

/-- `DifferentialPrivacy.apply_noise_to_dataframe`: default the target columns
to all numeric columns, split epsilon equally across them, run the column
loop, then record the spend `privacy_budget_spent += epsilon` and return the
noised dataframe, the report and the updated instance state. -/
def apply_noise_to_dataframe (s : DPState) (df : DataFrame) (mechanism : String)
    (columns : Option (List String)) (bounds : List (String × ℚ × ℚ))
    (noise : String → ℕ → ℚ) :
    Except DPError (DataFrame × DPReport × DPState) :=
  let cols := targetColumns df columns
  match applyLoop df mechanism (epsilon_per_column s cols) s.delta bounds noise
      cols df [] [] with
  | .error e => .error e
  | .ok (dfDp, processed, stats) =>
    .ok (dfDp,
      { epsilon := s.epsilon
        delta := s.delta
        mechanism := mechanism
        privacy_level := get_privacy_level s.epsilon
        columns_processed := processed
        noise_statistics := stats
        privacy_budget_spent := s.epsilon },
      { s with privacy_budget_spent := s.privacy_budget_spent + s.epsilon })

/-- `DifferentialPrivacy._get_privacy_budget_recommendation`. -/
def get_privacy_budget_recommendation (spent : ℚ) : String :=
  if spent < 1.0 then "Gizlilik bütçesi bol, daha fazla sorgu yapılabilir"
  else if spent < 5.0 then "Orta seviye kullanım, dikkatli olun"
  else if spent < 10.0 then "Yüksek kullanım, gizlilik azalıyor"
  else "Gizlilik bütçesi tükendi, yeni veri toplama gerekebilir"

/-- The report returned by `DifferentialPrivacy.calculate_privacy_loss`.
`advanced_composition` is real-valued (it uses `sqrt`, `log` and `exp`). -/
structure PrivacyLossReport where
  num_queries : ℕ
  base_epsilon : ℚ
  sequential_composition : ℚ
  advanced_composition : ℝ
  privacy_budget_spent : ℚ
  privacy_remaining : ℚ
  recommendation : String

/-- `DifferentialPrivacy.calculate_privacy_loss`: the sequential and advanced
composition numbers for `num_queries` releases at the instance epsilon, the
spent budget and the remaining budget against the hard-coded ceiling `10.0`.
The method assigns nothing to `self`, so the returned state is the input
state. -/
noncomputable def calculate_privacy_loss (s : DPState) (num_queries : ℕ) :
    PrivacyLossReport × DPState :=
  let total_epsilon : ℚ := s.epsilon * (num_queries : ℚ)
  let k : ℕ := num_queries
  let advanced_epsilon : ℝ :=
    Real.sqrt (2 * (k : ℝ) * Real.log (1 / (s.delta : ℝ))) * (s.epsilon : ℝ) +
      (k : ℝ) * (s.epsilon : ℝ) * (Real.exp (s.epsilon : ℝ) - 1)
  ({ num_queries := num_queries
     base_epsilon := s.epsilon
     sequential_composition := total_epsilon
     advanced_composition := advanced_epsilon
     privacy_budget_spent := s.privacy_budget_spent
     privacy_remaining := max 0 (10 - s.privacy_budget_spent)
     recommendation := get_privacy_budget_recommendation s.privacy_budget_spent },
   s)

/-- Modelled from the spec (§4.4): `sequential_composition(epsilon, k)` is
`epsilon * k`. -/
noncomputable def spec_sequential_composition (epsilon : ℝ) (k : ℕ) : ℝ :=
  epsilon * (k : ℝ)

/-- Modelled from the spec (§4.4): `advanced_composition(epsilon, delta, k)` is
`sqrt(2*k*ln(1/delta))*epsilon + k*epsilon*(exp(epsilon)-1)`. -/
noncomputable def spec_advanced_composition (epsilon delta : ℝ) (k : ℕ) : ℝ :=
  Real.sqrt (2 * (k : ℝ) * Real.log (1 / delta)) * epsilon +
    (k : ℝ) * epsilon * (Real.exp epsilon - 1)

/-- One invocation of the apply-noise pipeline: its dataframe and
configuration, with the noise oracle standing for the mechanism's random
draws. -/
structure CallInput where
  df : DataFrame
  mechanism : String
  columns : Option (List String)
  bounds : List (String × ℚ × ℚ)
  noise : String → ℕ → ℚ

/-- State transition of one apply-noise call: on success the instance keeps
the returned state, on an exception `privacy_budget_spent` is untouched
(the spend happens only after the whole column loop succeeds). -/
def applyNoiseStep (s : DPState) (inp : CallInput) : DPState :=
  match apply_noise_to_dataframe s inp.df inp.mechanism inp.columns inp.bounds
      inp.noise with
  | .ok r => r.2.2
  | .error _ => s

/-- Division as Python computes it in `k_anonymity_check`: `a / 0` produces
NaN (no well-defined value), modelled as `none`. -/
def ratDiv (a b : ℚ) : Option ℚ := if b = 0 then none else some (a / b)

/-- `DifferentialPrivacy._get_k_anonymity_recommendation`.  Its argument is
the possibly-NaN vulnerable percentage: every comparison against NaN is false
in Python, so NaN falls through to the final else branch. -/
def get_k_anonymity_recommendation (vulnerable_percentage : Option ℚ) : String :=
  match vulnerable_percentage with
  | some v =>
    if v = 0 then "Veri k-anonymous, re-identification riski çok düşük"
    else if v < 5 then "Düşük risk: Küçük oranda kayıt risk altında"
    else if v < 20 then "Orta risk: Ek gizlilik önlemleri önerilir"
    else "Yüksek risk: Veriyi anonimleştirmek veya DP uygulamak zorunlu"
  | none => "Yüksek risk: Veriyi anonimleştirmek veya DP uygulamak zorunlu"

/-- The report returned by `DifferentialPrivacy.k_anonymity_check`.
`vulnerable_percentage` is `none` when Python would produce NaN. -/
structure KAnonymityResult where
  k_value : ℕ
  total_records : ℕ
  vulnerable_records : ℕ
  vulnerable_percentage : Option ℚ
  is_k_anonymous : Bool
  smallest_group_size : ℕ
  average_group_size : ℚ
  recommendation : String
  deriving DecidableEq, Repr

/-- Number of rows of a dataframe (`len(df)`); every column of a well-formed
dataframe has this many values. -/
def numRows (df : DataFrame) : ℕ :=
  match df with
  | [] => 0
  | col :: _ => col.values.length

/-- The value of column `q` in row `i`; the defaults are never reached for a
well-formed dataframe containing `q`. -/
def cellValue (df : DataFrame) (q : String) (i : ℕ) : ℚ :=
  match df.find? (fun col => col.name == q) with
  | some col => col.values.getD i 0
  | none => 0

/-- The tuple of quasi-identifier values of row `i` (the groupby key). -/
def rowKey (df : DataFrame) (quasi : List String) (i : ℕ) : List ℚ :=
  quasi.map (fun q => cellValue df q i)

/-- The groupby key of every row, in row order. -/
def groupKeys (df : DataFrame) (quasi : List String) : List (List ℚ) :=
  (List.range (numRows df)).map (rowKey df quasi)

/-- Multiplicity of one groupby key among all row keys: the size of the
equivalence class of rows sharing it. -/
def countKey {K : Type} [DecidableEq K] (keys : List K) (x : K) : ℕ :=
  keys.count x

/-- `df.groupby(quasi_identifiers).size()`: the size of each equivalence
class of rows sharing a groupby key (one entry per distinct key). -/
def groupSizesOf {K : Type} [DecidableEq K] (keys : List K) : List ℕ :=
  keys.dedup.map (fun x => countKey keys x)

/-- Minimum of a list of group sizes (`groups.min()`); only used under the
source's nonempty guard. -/
def natListMin : List ℕ → ℕ
  | [] => 0
  | x :: xs => xs.foldl min x

/-- `DifferentialPrivacy.k_anonymity_check`: group rows by the
quasi-identifier tuple, find the groups smaller than `k`, and report the
vulnerable-record count and percentage, the k-anonymity verdict and the group
statistics. -/
def k_anonymity_check (df : DataFrame) (quasi_identifiers : List String)
    (k : ℕ) : KAnonymityResult :=
  let keys := groupKeys df quasi_identifiers
  let sizes := groupSizesOf keys
  let vulnerable_sizes := sizes.filter (fun n => n < k)
  let total_records := numRows df
  let vulnerable_records := vulnerable_sizes.sum
  let vulnerable_percentage :=
    (ratDiv (vulnerable_records : ℚ) (total_records : ℚ)).map (fun r => r * 100)
  { k_value := k
    total_records := total_records
    vulnerable_records := vulnerable_records
    vulnerable_percentage := vulnerable_percentage
    is_k_anonymous := vulnerable_sizes.length = 0
    smallest_group_size := if 0 < sizes.length then natListMin sizes else 0
    average_group_size :=
      if 0 < sizes.length then (sizes.sum : ℚ) / (sizes.length : ℚ) else 0
    recommendation := get_k_anonymity_recommendation vulnerable_percentage }

/-- Modelled from the spec (§4.5): a record is vulnerable when its equivalence
class under the quasi-identifier tuple has fewer than `k` members;
`vulnerable_records` is the number of such records. -/
def spec_vulnerable_records {K : Type} [DecidableEq K] (keys : List K) (k : ℕ) : ℕ :=
  (keys.filter (fun x => countKey keys x < k)).length

/-- The HTTP-layer error of the `check-k-anonymity` endpoint: the 400 response
whose detail lists the missing quasi-identifier columns. -/
inductive APIError where
  | validationError (missing : List String) : APIError
  deriving DecidableEq, Repr

/-- `df.columns`. -/
def columnNames (df : DataFrame) : List String := df.map (fun col => col.name)

/-- The `check_k_anonymity` endpoint of `api/dp.py` (file handling elided):
compute the quasi-identifier columns missing from the dataframe, fail with an
error listing them when there are any, otherwise delegate to
`k_anonymity_check`. -/
def check_k_anonymity (df : DataFrame) (quasi_identifiers : List String)
    (k : ℕ) : Except APIError KAnonymityResult :=
  let missing_columns :=
    quasi_identifiers.filter (fun c => !((columnNames df).contains c))
  if missing_columns ≠ [] then .error (.validationError missing_columns)
  else .ok (k_anonymity_check df quasi_identifiers k)

/-! ### Helper lemmas for the clipping invariant -/

theorem npClip_mem (x lower upper : ℚ) (h : lower ≤ upper) :
    lower ≤ npClip x lower upper ∧ npClip x lower upper ≤ upper := by
  unfold npClip
  exact ⟨le_min (le_max_right x lower) h, min_le_right _ _⟩

theorem mechanismCheck_ok_sensitivity (mechanism : String)
    (epsilon delta sensitivity : ℚ)
    (h : mechanismCheck mechanism epsilon delta sensitivity = .ok ()) :
    0 ≤ sensitivity := by
  unfold mechanismCheck at h
  split_ifs at h <;> simp_all

theorem add_noise_to_column_ok_mem (values : List ℚ) (mechanism : String)
    (epsilon delta lower upper : ℚ) (noise : ℕ → ℚ) (out : List ℚ)
    (h : add_noise_to_column values mechanism epsilon delta lower upper noise = .ok out) :
    ∀ v ∈ out, lower ≤ v ∧ v ≤ upper := by
  simp only [add_noise_to_column] at h
  cases hm : mechanismCheck mechanism epsilon delta (upper - lower) with
  | error e => simp [hm] at h
  | ok u =>
    cases u
    simp only [hm, Except.ok.injEq] at h
    subst h
    intro v hv
    simp only [List.mem_map] at hv
    obtain ⟨x, _, rfl⟩ := hv
    have hs : (0 : ℚ) ≤ upper - lower := mechanismCheck_ok_sensitivity _ _ _ _ hm
    exact npClip_mem _ _ _ (by linarith)

theorem setColumn_allGood_eq (P : List ℚ → Prop) (c : String) (d : DataFrame)
    (vs : List ℚ) (hvs : P vs) :
    ∀ col' ∈ setColumn d c vs, col'.name = c → P col'.values := by
  intro col' hmem hname
  simp only [setColumn, List.mem_map] at hmem
  obtain ⟨col, hcol, rfl⟩ := hmem
  by_cases hb : col.name = c
  · simpa [hb] using hvs
  · simp [hb] at hname

theorem setColumn_allGood_ne (P : List ℚ → Prop) (c : String) (d : DataFrame)
    (c₂ : String) (vs : List ℚ) (hne : c₂ ≠ c)
    (h : ∀ col' ∈ d, col'.name = c → P col'.values) :
    ∀ col' ∈ setColumn d c₂ vs, col'.name = c → P col'.values := by
  intro col' hmem hname
  simp only [setColumn, List.mem_map] at hmem
  obtain ⟨col, hcol, rfl⟩ := hmem
  by_cases hb : col.name = c₂
  · simp [hb] at hname
    exact absurd hname hne
  · simp [hb] at hname ⊢
    exact h col hcol hname

theorem applyLoop_processed_allGood
    (df : DataFrame) (mechanism : String) (epsC delta : ℚ)
    (bounds : List (String × ℚ × ℚ)) (noise : String → ℕ → ℚ)
    (P : List ℚ → Prop) (c : String)
    (HP : ∀ noisy st, processColumn df mechanism epsC delta bounds noise c
        = .ok (some (noisy, st)) → P noisy) :
    ∀ (cols : List String) (dfAcc : DataFrame) (p0 : List String)
      (s0 : List (String × NoiseStat)) (dfF : DataFrame) (proc : List String)
      (stats : List (String × NoiseStat)),
      applyLoop df mechanism epsC delta bounds noise cols dfAcc p0 s0
        = .ok (dfF, proc, stats) →
      ((∀ col' ∈ dfAcc, col'.name = c → P col'.values) →
        ∀ col' ∈ dfF, col'.name = c → P col'.values) ∧
      (c ∈ proc → c ∈ p0 ∨ ∀ col' ∈ dfF, col'.name = c → P col'.values) := by
  intro cols
  induction cols with
  | nil =>
    intro dfAcc p0 s0 dfF proc stats h
    simp only [applyLoop, Except.ok.injEq, Prod.mk.injEq] at h
    obtain ⟨rfl, rfl, rfl⟩ := h
    exact ⟨fun hg => hg, fun hc => .inl hc⟩
  | cons c₁ rest ih =>
    intro dfAcc p0 s0 dfF proc stats h
    simp only [applyLoop] at h
    cases hp : processColumn df mechanism epsC delta bounds noise c₁ with
    | error e => simp [hp] at h
    | ok o =>
      cases o with
      | none =>
        simp only [hp] at h
        exact ih dfAcc p0 s0 dfF proc stats h
      | some pr =>
        obtain ⟨noisy, st⟩ := pr
        simp only [hp] at h
        have IH := ih (setColumn dfAcc c₁ noisy) (p0 ++ [c₁]) (s0 ++ [(c₁, st)])
          dfF proc stats h
        constructor
        · intro hAcc
          apply IH.1
          by_cases hceq : c₁ = c
          · subst hceq
            exact setColumn_allGood_eq P c₁ dfAcc noisy (HP noisy st hp)
          · exact setColumn_allGood_ne P c dfAcc c₁ noisy hceq hAcc
        · intro hc
          rcases IH.2 hc with hin | hgood
          · rcases List.mem_append.1 hin with h1 | h2
            · exact .inl h1
            · have hceq : c = c₁ := by simpa using h2
              subst hceq
              exact .inr (IH.1 (setColumn_allGood_eq P c dfAcc noisy (HP noisy st hp)))
          · exact .inr hgood

theorem apply_noise_ok_parts {s : DPState} {df : DataFrame} {mechanism : String}
    {columns : Option (List String)} {bounds : List (String × ℚ × ℚ)}
    {noise : String → ℕ → ℚ} {dfDp : DataFrame} {rep : DPReport} {s' : DPState}
    (h : apply_noise_to_dataframe s df mechanism columns bounds noise
      = .ok (dfDp, rep, s')) :
    ∃ stats,
      applyLoop df mechanism (epsilon_per_column s (targetColumns df columns))
          s.delta bounds noise (targetColumns df columns) df [] []
        = .ok (dfDp, rep.columns_processed, stats) ∧
      rep = { epsilon := s.epsilon, delta := s.delta, mechanism := mechanism,
              privacy_level := get_privacy_level s.epsilon,
              columns_processed := rep.columns_processed,
              noise_statistics := stats,
              privacy_budget_spent := s.epsilon } ∧
      s' = { s with privacy_budget_spent := s.privacy_budget_spent + s.epsilon } := by
  simp only [apply_noise_to_dataframe] at h
  cases hL : applyLoop df mechanism (epsilon_per_column s (targetColumns df columns))
      s.delta bounds noise (targetColumns df columns) df [] [] with
  | error e => simp [hL] at h
  | ok r =>
    obtain ⟨d, p, st⟩ := r
    simp only [hL, Except.ok.injEq, Prod.mk.injEq] at h
    obtain ⟨rfl, hrep, rfl⟩ := h
    subst hrep
    exact ⟨st, rfl, rfl, rfl⟩

/-- C1: for every dataset, every processed numeric column whose resolved
bounds are `[lower, upper]`, and every value of that column in the dataframe
produced by `apply_noise_to_dataframe`, the value lies within
`[lower, upper]`: noise is injected first and the noisy values are then
clipped into the resolved bounds. -/
theorem apply_noise_clips_to_bounds
    (s : DPState) (df : DataFrame) (mechanism : String)
    (columns : Option (List String)) (bounds : List (String × ℚ × ℚ))
    (noise : String → ℕ → ℚ) (dfDp : DataFrame) (rep : DPReport) (s' : DPState)
    (h : apply_noise_to_dataframe s df mechanism columns bounds noise
      = .ok (dfDp, rep, s'))
    (c : String) (hc : c ∈ rep.columns_processed)
    (col₀ : Column) (h₀ : df.find? (fun col => col.name == c) = some col₀)
    (lower upper : ℚ) (hb : resolveBounds bounds c col₀.values = (lower, upper))
    (col' : Column) (hcol' : col' ∈ dfDp) (hname : col'.name = c) :
    ∀ v ∈ col'.values, lower ≤ v ∧ v ≤ upper := by
  obtain ⟨stats, hL, -, -⟩ := apply_noise_ok_parts h
  have HP : ∀ noisy st,
      processColumn df mechanism (epsilon_per_column s (targetColumns df columns))
        s.delta bounds noise c = .ok (some (noisy, st)) →
      ∀ v ∈ noisy, lower ≤ v ∧ v ≤ upper := by
    intro noisy st hp
    simp only [processColumn, h₀, hb] at hp
    by_cases hnum : col₀.numeric
    · simp only [hnum, not_true, if_false, ite_false] at hp
      cases ha : add_noise_to_column col₀.values mechanism
          (epsilon_per_column s (targetColumns df columns)) s.delta lower upper
          (noise c) with
      | error e => simp [ha] at hp
      | ok out =>
        simp only [ha, Except.ok.injEq, Option.some.injEq, Prod.mk.injEq] at hp
        obtain ⟨rfl, -⟩ := hp
        exact add_noise_to_column_ok_mem _ _ _ _ _ _ _ _ ha
    · simp [hnum] at hp
  have M := applyLoop_processed_allGood df mechanism
      (epsilon_per_column s (targetColumns df columns)) s.delta bounds noise
      (fun vs => ∀ v ∈ vs, lower ≤ v ∧ v ≤ upper) c HP
      (targetColumns df columns) df [] [] dfDp rep.columns_processed stats hL
  rcases M.2 hc with hfalse | hgood
  · simp at hfalse
  · exact hgood col' hcol' hname

/-- Witness for C1, spec Scenario A: column `age` with values
`[10,20,30,40,50]`, explicit bounds `(0,100)`, epsilon 1, laplace mechanism
and a large noise draw — every produced value lies in `[0, 100]`. -/
theorem apply_noise_clips_to_bounds_witness :
    List.Forall (fun v => (0 : ℚ) ≤ v ∧ v ≤ 100)
      [(100 : ℚ), 100, 100, 100, 100] := by
  have h : apply_noise_to_dataframe ⟨1, 1/100000, 0⟩
      [⟨"age", true, [10, 20, 30, 40, 50]⟩] "laplace" (some ["age"])
      [("age", 0, 100)] (fun _ _ => 1000)
      = .ok ([⟨"age", true, [100, 100, 100, 100, 100]⟩],
        { epsilon := 1, delta := 1/100000, mechanism := "laplace",
          privacy_level := "medium", columns_processed := ["age"],
          noise_statistics := [("age",
            { original_mean := 30, noisy_mean := 100, noise_magnitude := 70,
              relative_error := 7/3, epsilon_used := 1, bounds := (0, 100) })],
          privacy_budget_spent := 1 },
        ⟨1, 1/100000, 1⟩) := by
    simp only [apply_noise_to_dataframe, targetColumns, epsilon_per_column, applyLoop,
      processColumn, add_noise_to_column, mechanismCheck, resolveBounds, mkNoiseStat,
      listMean, listMin, listMax, npClip, setColumn, get_privacy_level, privacy_levels,
      List.find?, List.enum, List.enumFrom, List.map, List.sum, List.foldr,
      List.length, List.filter]
    norm_num
  exact List.forall_iff_forall_mem.mpr
    (apply_noise_clips_to_bounds _ _ _ _ _ _ _ _ _ h "age" (by simp)
      ⟨"age", true, [10, 20, 30, 40, 50]⟩ (by simp [List.find?])
      0 100 (by simp [resolveBounds, List.find?])
      ⟨"age", true, [100, 100, 100, 100, 100]⟩ (by simp) rfl)

/-- Counterexample to C2: with explicit degenerate bounds `(5,5)` the pipeline
raises nothing — it returns `ok`, emitting values (all clipped to the common
bound `5`), with the zero-sensitivity mechanism accepted and the budget spent. -/
theorem degenerate_bounds_no_validation_error :
    apply_noise_to_dataframe ⟨1, 1/100000, 0⟩ [⟨"age", true, [10, 20]⟩] "laplace"
        (some ["age"]) [("age", 5, 5)] (fun _ _ => 0)
      = .ok ([⟨"age", true, [5, 5]⟩],
        { epsilon := 1, delta := 1/100000, mechanism := "laplace",
          privacy_level := "medium", columns_processed := ["age"],
          noise_statistics := [("age",
            { original_mean := 15, noisy_mean := 5, noise_magnitude := 10,
              relative_error := 2/3, epsilon_used := 1, bounds := (5, 5) })],
          privacy_budget_spent := 1 },
        ⟨1, 1/100000, 1⟩) := by
  simp only [apply_noise_to_dataframe, targetColumns, epsilon_per_column, applyLoop,
    processColumn, add_noise_to_column, mechanismCheck, resolveBounds, mkNoiseStat,
    listMean, listMin, listMax, npClip, setColumn, get_privacy_level, privacy_levels,
    List.find?, List.enum, List.enumFrom, List.map, List.sum, List.foldr,
    List.length, List.filter]
  norm_num

/-- The mechanism validation specialised to the Laplace branch. -/
theorem mechanismCheck_laplace (epsilon delta sens : ℚ) :
    mechanismCheck "laplace" epsilon delta sens
      = if sens < 0 ∨ epsilon ≤ 0 then .error .valueError else .ok () := by
  simp [mechanismCheck]

/-- C2 amended: for equal bounds (`upper = lower`, e.g. `(5,5)`) no error is
raised — the zero-sensitivity Laplace mechanism is accepted, its noise scale
is zero, and clipping maps every emitted value to the common bound; an error
(the library's `ValueError`, not a `ValidationError`) occurs only for
`upper < lower`, i.e. a strictly negative sensitivity. -/
theorem degenerate_bounds_behavior (values : List ℚ) (epsilon delta b : ℚ)
    (noise : ℕ → ℚ) (heps : 0 < epsilon) :
    add_noise_to_column values "laplace" epsilon delta b b noise
      = .ok (values.map (fun _ => b))
    ∧ ∀ lower upper : ℚ, upper < lower →
        add_noise_to_column values "laplace" epsilon delta lower upper noise
          = .error .valueError := by
  constructor
  · have h1 : ∀ x : ℚ, npClip x b b = b := fun x => min_eq_right (le_max_right x b)
    simp [add_noise_to_column, mechanismCheck_laplace, heps.not_le, h1,
      List.map_map, Function.comp_def, List.map_const', List.enum_length]
  · intro lower upper hlt
    simp [add_noise_to_column, mechanismCheck_laplace, hlt]

/-- Witness for the amended C2 at bounds `(5,5)` and at the inverted bounds
`(7,3)`, epsilon 1. -/
theorem degenerate_bounds_behavior_witness :
    add_noise_to_column [10, 20] "laplace" 1 0 5 5 (fun _ => 0)
      = .ok ([(10 : ℚ), 20].map (fun _ => (5 : ℚ)))
    ∧ add_noise_to_column [10, 20] "laplace" 1 0 7 3 (fun _ => 0)
        = .error .valueError := by
  have H := degenerate_bounds_behavior [10, 20] 1 0 5 (fun _ => 0) (by norm_num)
  exact ⟨H.1, (degenerate_bounds_behavior [10, 20] 1 0 5 (fun _ => 0)
    (by norm_num)).2 7 3 (by norm_num)⟩

/-- Counterexample to C5: calling the pipeline with an explicitly empty
target-column set raises nothing — the call succeeds, processing no columns,
returning the dataframe unchanged and still spending the full epsilon. -/
theorem empty_columns_no_error :
    apply_noise_to_dataframe ⟨1, 1/100000, 0⟩ [⟨"age", true, [1, 2]⟩] "laplace"
        (some []) [] (fun _ _ => 0)
      = .ok ([⟨"age", true, [1, 2]⟩],
        { epsilon := 1, delta := 1/100000, mechanism := "laplace",
          privacy_level := get_privacy_level 1, columns_processed := [],
          noise_statistics := [], privacy_budget_spent := 1 },
        ⟨1, 1/100000, 0 + 1⟩) := rfl

/-- C5 amended: with an empty target-column set the pipeline raises no error
at all: for every state, dataframe, mechanism, bounds and noise it returns
the dataframe unchanged, an empty `columns_processed`, and adds the full
epsilon to the spent budget. -/
theorem empty_columns_returns_unchanged (s : DPState) (df : DataFrame)
    (mechanism : String) (bounds : List (String × ℚ × ℚ))
    (noise : String → ℕ → ℚ) :
    apply_noise_to_dataframe s df mechanism (some []) bounds noise
      = .ok (df,
        { epsilon := s.epsilon, delta := s.delta, mechanism := mechanism,
          privacy_level := get_privacy_level s.epsilon, columns_processed := [],
          noise_statistics := [], privacy_budget_spent := s.epsilon },
        { s with privacy_budget_spent := s.privacy_budget_spent + s.epsilon }) := rfl

/-- Budget bookkeeping of a sequence of successful apply-noise calls, by
induction: epsilon and delta never change and every call adds the instance
epsilon to the spent budget. -/
theorem foldl_budget (E D : ℚ) :
    ∀ (inputs : List CallInput) (s : DPState), s.epsilon = E → s.delta = D →
      (∀ inp ∈ inputs, ∀ t : DPState, t.epsilon = E → t.delta = D →
        ∃ r, apply_noise_to_dataframe t inp.df inp.mechanism inp.columns
          inp.bounds inp.noise = .ok r) →
      (inputs.foldl applyNoiseStep s).privacy_budget_spent
          = s.privacy_budget_spent + (inputs.length : ℚ) * E
      ∧ (inputs.foldl applyNoiseStep s).epsilon = E
      ∧ (inputs.foldl applyNoiseStep s).delta = D := by
  intro inputs
  induction inputs with
  | nil => intro s hE hD _; simp [hE, hD]
  | cons inp rest ih =>
    intro s hE hD hok
    obtain ⟨r, hr⟩ := hok inp (by simp) s hE hD
    obtain ⟨df', rep, s'⟩ := r
    obtain ⟨-, -, -, hs'⟩ := apply_noise_ok_parts hr
    simp only [List.foldl_cons]
    have hstep : applyNoiseStep s inp = s' := by simp [applyNoiseStep, hr]
    rw [hstep, hs']
    obtain ⟨h1, h2, h3⟩ := ih
      { s with privacy_budget_spent := s.privacy_budget_spent + s.epsilon } hE hD
      (fun i hi => hok i (List.mem_cons_of_mem _ hi))
    refine ⟨?_, h2, h3⟩
    rw [h1]
    simp only [List.length_cons, hE]
    push_cast
    ring

/-- C3: starting from a fresh account, after any sequence of successful
apply-noise calls the spent budget equals the sum of the total epsilon of each
call, and for every composition query the reported remaining budget equals
`max(0, 10 - spent)` (default ceiling 10.0) and is never negative. -/
theorem privacy_budget_accumulates (inputs : List CallInput) (s₀ : DPState)
    (h0 : s₀.privacy_budget_spent = 0)
    (hok : ∀ inp ∈ inputs, ∀ t : DPState, t.epsilon = s₀.epsilon →
      t.delta = s₀.delta →
      ∃ r, apply_noise_to_dataframe t inp.df inp.mechanism inp.columns
        inp.bounds inp.noise = .ok r) :
    (inputs.foldl applyNoiseStep s₀).privacy_budget_spent
        = (inputs.map (fun _ => s₀.epsilon)).sum
    ∧ ∀ n : ℕ,
        (calculate_privacy_loss (inputs.foldl applyNoiseStep s₀) n).1.privacy_remaining
          = max 0 (10 - (inputs.foldl applyNoiseStep s₀).privacy_budget_spent)
        ∧ 0 ≤ (calculate_privacy_loss (inputs.foldl applyNoiseStep s₀) n).1.privacy_remaining := by
  obtain ⟨h1, -, -⟩ := foldl_budget s₀.epsilon s₀.delta inputs s₀ rfl rfl hok
  constructor
  · rw [h1, h0]
    simp [List.map_const', List.sum_replicate, nsmul_eq_mul]
  · intro n
    refine ⟨by simp [calculate_privacy_loss], ?_⟩
    simp only [calculate_privacy_loss]
    exact le_max_left 0 _

/-- Witness for C3, spec Scenario E: two sequential apply-noise calls with
epsilon 2 each on a fresh account give `spent == 4` and
`remaining(10.0) == 6`. -/
theorem privacy_budget_accumulates_witness :
    (([⟨[], "laplace", some [], [], fun _ _ => 0⟩,
       ⟨[], "laplace", some [], [], fun _ _ => 0⟩] : List CallInput).foldl
        applyNoiseStep ⟨2, 1/100000, 0⟩).privacy_budget_spent = 4
    ∧ (calculate_privacy_loss
        (([⟨[], "laplace", some [], [], fun _ _ => 0⟩,
           ⟨[], "laplace", some [], [], fun _ _ => 0⟩] : List CallInput).foldl
          applyNoiseStep ⟨2, 1/100000, 0⟩) 1).1.privacy_remaining = 6 := by
  have H := privacy_budget_accumulates
    [⟨[], "laplace", some [], [], fun _ _ => 0⟩,
     ⟨[], "laplace", some [], [], fun _ _ => 0⟩] ⟨2, 1/100000, 0⟩ rfl
    (by
      intro i hi t ht1 ht2
      simp only [List.mem_cons, List.not_mem_nil, or_false] at hi
      rcases hi with rfl | rfl
      · exact ⟨_, rfl⟩
      · exact ⟨_, rfl⟩)
  have h4 : (([⟨[], "laplace", some [], [], fun _ _ => 0⟩,
       ⟨[], "laplace", some [], [], fun _ _ => 0⟩] : List CallInput).foldl
        applyNoiseStep ⟨2, 1/100000, 0⟩).privacy_budget_spent = 4 := by
    rw [H.1]; norm_num
  refine ⟨h4, ?_⟩
  rw [(H.2 1).1, h4]
  norm_num

/-- C4: for every epsilon and delta in `(0,1)` and `k ≥ 1`, the composition
query reports `sequential_composition = epsilon * k` exactly and
`advanced_composition = sqrt(2*k*ln(1/delta))*epsilon +
k*epsilon*(exp(epsilon)-1)`, matching the spec formulas. -/
theorem composition_matches_spec_formulas (s : DPState) (k : ℕ)
    (heps : 0 < s.epsilon) (hd0 : 0 < s.delta) (hd1 : s.delta < 1) (hk : 1 ≤ k) :
    ((calculate_privacy_loss s k).1.sequential_composition : ℝ)
        = spec_sequential_composition (s.epsilon : ℝ) k
    ∧ (calculate_privacy_loss s k).1.advanced_composition
        = spec_advanced_composition (s.epsilon : ℝ) (s.delta : ℝ) k := by
  constructor
  · simp only [calculate_privacy_loss, spec_sequential_composition]
    push_cast
    ring
  · simp [calculate_privacy_loss, spec_advanced_composition]

/-- Witness for C4 at `epsilon = 1`, `delta = 1/2`, `k = 1`. -/
theorem composition_matches_spec_formulas_witness :
    (((calculate_privacy_loss ⟨1, 1/2, 0⟩ 1).1.sequential_composition : ℝ)
        = spec_sequential_composition ((1 : ℚ) : ℝ) 1)
    ∧ (calculate_privacy_loss ⟨1, 1/2, 0⟩ 1).1.advanced_composition
        = spec_advanced_composition ((1 : ℚ) : ℝ) ((1/2 : ℚ) : ℝ) 1 :=
  composition_matches_spec_formulas ⟨1, 1/2, 0⟩ 1 (by norm_num) (by norm_num)
    (by norm_num) (le_refl 1)

/-- C6: the composition query is a pure function of `(epsilon, delta, k)`: it
returns the account state unchanged (spent is not mutated), and two states
agreeing on epsilon and delta but differing in spent get identical sequential
and advanced composition numbers. -/
theorem composition_query_is_pure (s₁ s₂ : DPState) (k : ℕ)
    (he : s₁.epsilon = s₂.epsilon) (hd : s₁.delta = s₂.delta) :
    (calculate_privacy_loss s₁ k).2 = s₁
    ∧ (calculate_privacy_loss s₁ k).1.sequential_composition
        = (calculate_privacy_loss s₂ k).1.sequential_composition
    ∧ (calculate_privacy_loss s₁ k).1.advanced_composition
        = (calculate_privacy_loss s₂ k).1.advanced_composition := by
  refine ⟨rfl, ?_, ?_⟩ <;> simp [calculate_privacy_loss, he, hd]

/-- Witness for C6: two accounts with spent 0 and 7 and the same
`(epsilon, delta)` agree on both composition numbers, and the query leaves
the state untouched. -/
theorem composition_query_is_pure_witness :
    ((calculate_privacy_loss ⟨1, 1/2, 0⟩ 3).2 = ⟨1, 1/2, 0⟩)
    ∧ (calculate_privacy_loss ⟨1, 1/2, 0⟩ 3).1.sequential_composition
        = (calculate_privacy_loss ⟨1, 1/2, 7⟩ 3).1.sequential_composition
    ∧ (calculate_privacy_loss ⟨1, 1/2, 0⟩ 3).1.advanced_composition
        = (calculate_privacy_loss ⟨1, 1/2, 7⟩ 3).1.advanced_composition :=
  composition_query_is_pure ⟨1, 1/2, 0⟩ ⟨1, 1/2, 7⟩ 3 rfl rfl

/-- C7: whenever some requested quasi-identifier is not a column of the
dataset, the k-anonymity check fails with the validation error listing
exactly the missing names (the given missing name among them); nothing is
silently skipped. -/
theorem missing_quasi_identifiers_rejected (df : DataFrame) (quasi : List String)
    (k : ℕ) (c : String) (hc : c ∈ quasi) (hmiss : c ∉ columnNames df) :
    check_k_anonymity df quasi k
        = .error (.validationError
            (quasi.filter (fun q => !((columnNames df).contains q))))
    ∧ c ∈ quasi.filter (fun q => !((columnNames df).contains q)) := by
  have hcm : c ∈ quasi.filter (fun q => !((columnNames df).contains q)) := by
    rw [List.mem_filter]
    exact ⟨hc, by simpa using hmiss⟩
  refine ⟨?_, hcm⟩
  simp only [check_k_anonymity]
  rw [if_pos (List.ne_nil_of_mem hcm)]

/-- Witness for C7: requesting quasi-identifiers `["zip", "agee"]` against a
dataset whose only column is `zip` yields the validation error, with `agee`
listed among the missing names. -/
theorem missing_quasi_identifiers_rejected_witness :
    check_k_anonymity [⟨"zip", true, [1]⟩] ["zip", "agee"] 5
        = .error (.validationError
            (["zip", "agee"].filter
              (fun q => !((columnNames [⟨"zip", true, [1]⟩]).contains q))))
    ∧ "agee" ∈ ["zip", "agee"].filter
        (fun q => !((columnNames [⟨"zip", true, [1]⟩]).contains q)) :=
  missing_quasi_identifiers_rejected [⟨"zip", true, [1]⟩] ["zip", "agee"] 5 "agee"
    (by simp) (by simp [columnNames])

/-! ### Counting lemmas for the k-anonymity analyzer -/

/-- Counting a disjunction of two pointwise-disjoint predicates splits into a
sum. -/
theorem countP_or_disjoint {K : Type} (l : List K) (p₁ p₂ : K → Bool)
    (hd : ∀ x, ¬(p₁ x = true ∧ p₂ x = true)) :
    l.countP (fun x => p₁ x || p₂ x) = l.countP p₁ + l.countP p₂ := by
  induction l with
  | nil => simp
  | cons a t ih =>
    simp only [List.countP_cons, ih]
    by_cases h1 : p₁ a = true <;> by_cases h2 : p₂ a = true
    · exact absurd ⟨h1, h2⟩ (hd a)
    all_goals simp [h1, h2] <;> omega

/-- Counting the elements equal to `a` that satisfy `q` gives the class size
of `a` when `q a`, else `0`. -/
theorem countP_beq_and {K : Type} [DecidableEq K] (keys : List K) (a : K)
    (q : K → Bool) :
    keys.countP (fun x => (x == a) && q x)
      = if q a then countKey keys a else 0 := by
  by_cases hq : q a = true
  · rw [if_pos hq, countKey, List.count_eq_countP]
    apply List.countP_congr
    intro x _
    constructor
    · intro h
      simp only [Bool.and_eq_true] at h
      exact h.1
    · intro h
      simp only [beq_iff_eq] at h
      subst h
      simp [hq]
  · rw [if_neg hq]
    rw [List.countP_eq_zero]
    intro x _
    simp only [Bool.and_eq_true, beq_iff_eq, not_and]
    intro hxa
    subst hxa
    exact fun hx => hq hx

/-- Summing the class sizes of the distinct keys of a duplicate-free list `d`
that satisfy `q` counts the elements of `keys` lying in a `q`-class of `d`. -/
theorem sum_map_count_filter_nodup {K : Type} [DecidableEq K] (keys : List K)
    (q : K → Bool) :
    ∀ d : List K, d.Nodup →
      ((d.filter q).map (fun x => countKey keys x)).sum
        = keys.countP (fun x => decide (x ∈ d) && q x) := by
  intro d
  induction d with
  | nil => simp
  | cons a t ih =>
    intro hn
    rw [List.nodup_cons] at hn
    obtain ⟨ha, ht⟩ := hn
    have hsplit : keys.countP (fun x => decide (x ∈ a :: t) && q x)
        = keys.countP (fun x => (x == a) && q x)
          + keys.countP (fun x => decide (x ∈ t) && q x) := by
      rw [← countP_or_disjoint]
      · apply List.countP_congr
        intro x _
        by_cases hxa : x = a <;> by_cases hxt : x ∈ t <;>
          simp [hxa, hxt, List.mem_cons]
      · intro x hx
        obtain ⟨hx1, hx2⟩ := hx
        simp only [Bool.and_eq_true, beq_iff_eq] at hx1 hx2
        rw [hx1.1] at hx2
        exact ha (of_decide_eq_true hx2.1)
    rw [hsplit, countP_beq_and]
    cases hq : q a with
    | true =>
      rw [List.filter_cons_of_pos hq, List.map_cons, List.sum_cons, ih ht]
      simp
    | false =>
      rw [List.filter_cons_of_neg (by simp [hq]), ih ht]
      simp

/-- The sum of the sizes of the equivalence classes of size `< k` equals the
number of records lying in a class of size `< k`. -/
theorem groupSizes_filter_sum {K : Type} [DecidableEq K] (keys : List K) (k : ℕ) :
    ((groupSizesOf keys).filter (fun n => n < k)).sum
      = spec_vulnerable_records keys k := by
  unfold groupSizesOf spec_vulnerable_records
  rw [List.filter_map, sum_map_count_filter_nodup keys _ keys.dedup
    (List.nodup_dedup keys), ← List.countP_eq_length_filter]
  apply List.countP_congr
  intro x hx
  simp [List.mem_dedup, hx, Function.comp]

/-- No vulnerable group exists iff every record's class has size `≥ k`. -/
theorem vulnerable_sizes_empty_iff {K : Type} [DecidableEq K] (keys : List K)
    (k : ℕ) :
    ((groupSizesOf keys).filter (fun n => n < k)).length = 0
      ↔ ∀ x ∈ keys, ¬ countKey keys x < k := by
  rw [List.length_eq_zero, List.filter_eq_nil]
  unfold groupSizesOf
  constructor
  · intro h x hx
    have := h (countKey keys x) (List.mem_map.2 ⟨x, List.mem_dedup.2 hx, rfl⟩)
    simpa using this
  · intro h n hn
    rw [List.mem_map] at hn
    obtain ⟨x, hxd, rfl⟩ := hn
    simpa using h x (List.mem_dedup.1 hxd)

/-- There is one groupby key per row. -/
theorem groupKeys_length (df : DataFrame) (quasi : List String) :
    (groupKeys df quasi).length = numRows df := by
  simp [groupKeys]

/-- C8: for a non-empty dataset, `vulnerable_records` is the number of records
whose quasi-identifier equivalence class has size `< k` (the sum of the sizes
of the small classes), `vulnerable_percentage` is
`vulnerable_records / total_records * 100`, and `is_k_anonymous` holds iff no
class has size `< k`; when all row keys are distinct and `k = 5` the
percentage is `100.0` and `is_k_anonymous` is false. -/
theorem k_anonymity_check_counts (df : DataFrame) (quasi : List String) (k : ℕ)
    (hne : numRows df ≠ 0) :
    (k_anonymity_check df quasi k).vulnerable_records
        = spec_vulnerable_records (groupKeys df quasi) k
    ∧ (k_anonymity_check df quasi k).vulnerable_percentage
        = some ((((k_anonymity_check df quasi k).vulnerable_records : ℚ)
            / (numRows df : ℚ)) * 100)
    ∧ ((k_anonymity_check df quasi k).is_k_anonymous = true
        ↔ ∀ x ∈ groupKeys df quasi, ¬ countKey (groupKeys df quasi) x < k)
    ∧ ((groupKeys df quasi).Nodup → k = 5 →
        (k_anonymity_check df quasi k).vulnerable_percentage = some 100
        ∧ (k_anonymity_check df quasi k).is_k_anonymous = false) := by
  have hvr : (k_anonymity_check df quasi k).vulnerable_records
      = spec_vulnerable_records (groupKeys df quasi) k := by
    simp only [k_anonymity_check]
    exact groupSizes_filter_sum _ _
  have hcast : ((numRows df : ℚ)) ≠ 0 := Nat.cast_ne_zero.2 hne
  have hpct : (k_anonymity_check df quasi k).vulnerable_percentage
      = some ((((k_anonymity_check df quasi k).vulnerable_records : ℚ)
          / (numRows df : ℚ)) * 100) := by
    simp only [k_anonymity_check, ratDiv, if_neg hcast, Option.map_some']
  have hiff : (k_anonymity_check df quasi k).is_k_anonymous = true
      ↔ ∀ x ∈ groupKeys df quasi, ¬ countKey (groupKeys df quasi) x < k := by
    simp only [k_anonymity_check, decide_eq_true_eq]
    exact vulnerable_sizes_empty_iff (groupKeys df quasi) k
  refine ⟨hvr, hpct, hiff, ?_⟩
  intro hnd hk5
  have hones : ∀ x ∈ groupKeys df quasi, countKey (groupKeys df quasi) x = 1 :=
    fun x hx => List.count_eq_one_of_mem hnd hx
  have hfull : spec_vulnerable_records (groupKeys df quasi) k = numRows df := by
    unfold spec_vulnerable_records
    have hself : (groupKeys df quasi).filter
        (fun x => decide (countKey (groupKeys df quasi) x < k))
        = groupKeys df quasi := by
      rw [List.filter_eq_self]
      intro x hx
      simp [hones x hx, hk5]
    rw [hself, groupKeys_length]
  constructor
  · rw [hpct, hvr, hfull, div_self hcast]
    norm_num
  · cases hb : (k_anonymity_check df quasi k).is_k_anonymous with
    | false => rfl
    | true =>
      exfalso
      obtain ⟨x, hx⟩ := List.exists_mem_of_ne_nil (groupKeys df quasi)
        (by
          intro hnil
          apply hne
          rw [← groupKeys_length df quasi, hnil]
          rfl)
      have hcontra := (hiff.1 hb) x hx
      rw [hones x hx, hk5] at hcontra
      omega

/-- Witness for C8, spec Scenario B: three records with pairwise-distinct
`(zip, age)` pairs and `k = 5` give `vulnerable_percentage == 100.0` and
`is_k_anonymous == False`. -/
theorem k_anonymity_check_counts_witness :
    (k_anonymity_check [⟨"zip", true, [1, 2, 3]⟩, ⟨"age", true, [30, 40, 50]⟩]
        ["zip", "age"] 5).vulnerable_percentage = some 100
    ∧ (k_anonymity_check [⟨"zip", true, [1, 2, 3]⟩, ⟨"age", true, [30, 40, 50]⟩]
        ["zip", "age"] 5).is_k_anonymous = false := by
  have H := k_anonymity_check_counts
    [⟨"zip", true, [1, 2, 3]⟩, ⟨"age", true, [30, 40, 50]⟩] ["zip", "age"] 5
    (by decide)
  exact H.2.2.2 (by decide) rfl

/-- C10: for an empty dataset the vulnerable-percentage computation divides by
`total_records == 0` (Python produces NaN, modelled as `none`): the division
is unguarded, unlike `smallest_group_size` and `average_group_size`, which
are guarded to 0. -/
theorem empty_dataset_percentage_undefined (df : DataFrame) (quasi : List String)
    (k : ℕ) (h : numRows df = 0) :
    (k_anonymity_check df quasi k).vulnerable_percentage = none
    ∧ (k_anonymity_check df quasi k).smallest_group_size = 0
    ∧ (k_anonymity_check df quasi k).average_group_size = 0 := by
  have hkeys : groupKeys df quasi = [] := by simp [groupKeys, h]
  simp [k_anonymity_check, hkeys, groupSizesOf, ratDiv, h]

/-- Witness for C10 at the empty dataframe. -/
theorem empty_dataset_percentage_undefined_witness :
    (k_anonymity_check [] ["zip"] 5).vulnerable_percentage = none
    ∧ (k_anonymity_check [] ["zip"] 5).smallest_group_size = 0
    ∧ (k_anonymity_check [] ["zip"] 5).average_group_size = 0 :=
  empty_dataset_percentage_undefined [] ["zip"] 5 rfl

/-- C9: the two privacy-level mappings agree on `[0.1, 10.0)`, returning the
same bucket out of the five spec buckets; outside that range they diverge:
`get_privacy_level` returns `"custom"` (not one of the five buckets) while
`_get_privacy_level_for_epsilon` returns `"very_high"` below `0.1` and
`"very_low"` at or above `10.0`. -/
theorem privacy_level_mappings_agree (epsilon : ℚ) :
    ((1/10 ≤ epsilon ∧ epsilon < 10) →
        get_privacy_level epsilon = get_privacy_level_for_epsilon epsilon
        ∧ get_privacy_level epsilon
            ∈ (["very_high", "high", "medium", "low", "very_low"] : List String))
    ∧ (epsilon < 1/10 →
        get_privacy_level epsilon = "custom"
        ∧ get_privacy_level_for_epsilon epsilon = "very_high")
    ∧ (10 ≤ epsilon →
        get_privacy_level epsilon = "custom"
        ∧ get_privacy_level_for_epsilon epsilon = "very_low")
    ∧ "custom" ∉ (["very_high", "high", "medium", "low", "very_low"] : List String) := by
  refine ⟨?_, ?_, ?_, by decide⟩
  · rintro ⟨h1, h2⟩
    rcases lt_or_le epsilon (1/2) with c1 | c1
    · have hg : get_privacy_level epsilon = "very_high" := by
        unfold get_privacy_level privacy_levels
        norm_num [List.find?, h1, c1]
      have hf : get_privacy_level_for_epsilon epsilon = "very_high" := by
        unfold get_privacy_level_for_epsilon
        norm_num [c1]
      exact ⟨hg.trans hf.symm, by simp [hg]⟩
    · rcases lt_or_le epsilon 1 with c2 | c2
      · have hg : get_privacy_level epsilon = "high" := by
          unfold get_privacy_level privacy_levels
          norm_num [List.find?, not_lt.mpr c1, c1, c2]
        have hf : get_privacy_level_for_epsilon epsilon = "high" := by
          unfold get_privacy_level_for_epsilon
          norm_num [not_lt.mpr c1, c2]
        exact ⟨hg.trans hf.symm, by simp [hg]⟩
      · rcases lt_or_le epsilon 2 with c3 | c3
        · have hg : get_privacy_level epsilon = "medium" := by
            unfold get_privacy_level privacy_levels
            norm_num [List.find?, not_lt.mpr c1, not_lt.mpr c2, c2, c3]
          have hf : get_privacy_level_for_epsilon epsilon = "medium" := by
            unfold get_privacy_level_for_epsilon
            norm_num [not_lt.mpr c1, not_lt.mpr c2, c3]
          exact ⟨hg.trans hf.symm, by simp [hg]⟩
        · rcases lt_or_le epsilon 5 with c4 | c4
          · have hg : get_privacy_level epsilon = "low" := by
              unfold get_privacy_level privacy_levels
              norm_num [List.find?, not_lt.mpr c1, not_lt.mpr c2, not_lt.mpr c3,
                c3, c4]
            have hf : get_privacy_level_for_epsilon epsilon = "low" := by
              unfold get_privacy_level_for_epsilon
              norm_num [not_lt.mpr c1, not_lt.mpr c2, not_lt.mpr c3, c4]
            exact ⟨hg.trans hf.symm, by simp [hg]⟩
          · have hg : get_privacy_level epsilon = "very_low" := by
              unfold get_privacy_level privacy_levels
              norm_num [List.find?, not_lt.mpr c1, not_lt.mpr c2, not_lt.mpr c3,
                not_lt.mpr c4, c4, h2]
            have hf : get_privacy_level_for_epsilon epsilon = "very_low" := by
              unfold get_privacy_level_for_epsilon
              norm_num [not_lt.mpr c1, not_lt.mpr c2, not_lt.mpr c3, not_lt.mpr c4]
            exact ⟨hg.trans hf.symm, by simp [hg]⟩
  · intro h
    have n1 : ¬((1 : ℚ)/10 ≤ epsilon) := not_le.mpr h
    have n2 : ¬((1 : ℚ)/2 ≤ epsilon) := by intro hx; linarith
    have n3 : ¬((1 : ℚ) ≤ epsilon) := by intro hx; linarith
    have n4 : ¬((2 : ℚ) ≤ epsilon) := by intro hx; linarith
    have n5 : ¬((5 : ℚ) ≤ epsilon) := by intro hx; linarith
    constructor
    · unfold get_privacy_level privacy_levels
      norm_num [List.find?, n1, n2, n3, n4, n5]
    · unfold get_privacy_level_for_epsilon
      norm_num [show epsilon < (1 : ℚ)/2 by linarith]
  · intro h
    have n1 : ¬(epsilon < (1 : ℚ)/2) := by intro hx; linarith
    have n2 : ¬(epsilon < (1 : ℚ)) := by intro hx; linarith
    have n3 : ¬(epsilon < (2 : ℚ)) := by intro hx; linarith
    have n4 : ¬(epsilon < (5 : ℚ)) := by intro hx; linarith
    have n5 : ¬(epsilon < (10 : ℚ)) := not_lt.mpr h
    constructor
    · unfold get_privacy_level privacy_levels
      norm_num [List.find?, n1, n2, n3, n4, n5]
    · unfold get_privacy_level_for_epsilon
      norm_num [n1, n2, n3, n4]

/-- Witness for C9 at epsilon `0.3` (agreement), `0.05` (custom vs very_high)
and `10` (custom vs very_low). -/
theorem privacy_level_mappings_agree_witness :
    (get_privacy_level (3/10) = get_privacy_level_for_epsilon (3/10)
      ∧ get_privacy_level (3/10)
          ∈ (["very_high", "high", "medium", "low", "very_low"] : List String))
    ∧ (get_privacy_level (1/20) = "custom"
      ∧ get_privacy_level_for_epsilon (1/20) = "very_high")
    ∧ (get_privacy_level 10 = "custom"
      ∧ get_privacy_level_for_epsilon 10 = "very_low") :=
  ⟨(privacy_level_mappings_agree (3/10)).1 (by norm_num),
   (privacy_level_mappings_agree (1/20)).2.1 (by norm_num),
   (privacy_level_mappings_agree 10).2.2.1 (by norm_num)⟩
